import Mathlib

/-!
# Verification of the `tenant_core` multi-tenant pipeline

A shallow embedding of the `django-tenant-core` repository: the data model
(`tenant_core/models.py`), the request-scoped tenant context
(`tenant_core/context.py`), the middleware pipeline
(`tenant_core/middleware.py`), the view mixins (`tenant_core/mixins.py`) and
the role-based permission layer (`tenant_core/permissions.py`), together with
theorems settling the specification's claims about them.

Conventions of the embedding:
* Dates are modelled as integers (a day number); `timezone.now().date()`
  becomes an explicit `today` parameter.
* Django querysets of subscriptions are modelled as the list
  `Tenant.subscriptions`, held in the queryset's declared `Meta` ordering
  `["-start_date"]` (most recently started first), so `.filter(...).first()`
  becomes `List.find?`.
* Python exceptions become `Except` values; an exception class becomes a
  constructor of `TenantExc`.
* Thread-local context state is passed explicitly as an `Option Tenant`.
-/

namespace TenantCore

/-- Calendar dates, as a day number (only comparison and equality matter). -/
abbrev Date := Int

/-! ## exceptions.py -/

/-- The exception classes of `tenant_core/exceptions.py`.
`planLimitExceeded` carries `limit_key` like the Python class. -/
inductive TenantExc where
  | tenantNotFound
  | tenantInactive
  | subscriptionExpired (msg : String)
  | subscriptionSuspended (msg : String)
  | planLimitExceeded (msg : String) (limit_key : Option String)
deriving DecidableEq, Repr

/-! ## models.py: Plan -/

/-- `Plan` (models.py). `max_users` / `max_recs` are nullable positive
integers (`None` = unlimited); `extra_limits` is the JSONField map of named
numeric quotas, modelled as an association list. -/
structure Plan where
  name : String
  max_users : Option Nat
  max_recs : Option Nat
  extra_limits : List (String × Nat)
deriving DecidableEq, Repr

/-- `Plan.get_limit` (models.py line 47-49): `return self.extra_limits.get(key)`.
Only the `extra_limits` map is consulted. -/
def Plan.get_limit (p : Plan) (key : String) : Option Nat :=
  (p.extra_limits.find? (fun kv => kv.1 == key)).map (fun kv => kv.2)

/-- Modelled from the spec: the spec (§4.4) says the quota value is read
"checking both named numeric fields and the open-ended quota map"; this
definition follows those words (named field first, then the map) so it can be
compared against the source's `Plan.get_limit`, which reads only the map. -/
def Plan.get_limit_spec (p : Plan) (key : String) : Option Nat :=
  if key == "max_users" && p.max_users.isSome then p.max_users
  else if key == "max_records" && p.max_recs.isSome then p.max_recs
  else p.get_limit key

/-! ## models.py: Subscription -/

/-- The `STATUS_CHOICES` of `Subscription`. -/
inductive SubStatus where
  | active
  | expired
  | suspended
  | cancelled
deriving DecidableEq, Repr

/-- `Subscription` (models.py). The fields the enforcement logic reads. -/
structure Subscription where
  plan : Plan
  start_date : Date
  end_date : Date
  status : SubStatus
  auto_renewal : Bool
deriving DecidableEq, Repr

/-- `Subscription.is_active` (models.py line 92-94):
`self.status == "active" and self.end_date >= timezone.now().date()`. -/
def Subscription.is_active (s : Subscription) (today : Date) : Bool :=
  s.status == .active && s.end_date >= today

/-- `Subscription.verify_access` (models.py line 96-110): suspended /
cancelled raise `SubscriptionSuspended`; otherwise a subscription that is not
`is_active` raises `SubscriptionExpired`. -/
def Subscription.verify_access (s : Subscription) (today : Date) :
    Except TenantExc Unit :=
  if s.status == .suspended then
    .error (.subscriptionSuspended
      "Your account is suspended. Please contact support.")
  else if s.status == .cancelled then
    .error (.subscriptionSuspended "Your subscription has been cancelled.")
  else if !(s.is_active today) then
    .error (.subscriptionExpired
      ("Your subscription expired on " ++ toString s.end_date ++
       ". Please renew to continue."))
  else
    .ok ()

/-! ## models.py: Tenant -/

/-- `Tenant` (models.py). `subscriptions` is the reverse queryset, held in
`Subscription.Meta.ordering = ["-start_date"]` order (most recent first). -/
structure Tenant where
  name : String
  slug : String
  is_active : Bool
  subscriptions : List Subscription
deriving DecidableEq, Repr

/-- `Tenant.get_active_subscription` (models.py line 134-136):
`self.subscriptions.filter(status="active").first()` — the first subscription
in `-start_date` order whose status is `active`. -/
def Tenant.get_active_subscription (t : Tenant) : Option Subscription :=
  t.subscriptions.find? (fun s => s.status == .active)

/-- `Tenant.verify_subscription` (models.py line 138-146): no active
subscription raises `SubscriptionExpired`; otherwise delegate to
`verify_access`. -/
def Tenant.verify_subscription (t : Tenant) (today : Date) :
    Except TenantExc Unit :=
  match t.get_active_subscription with
  | none => .error (.subscriptionExpired "No active subscription found.")
  | some s => s.verify_access today

/-- `Tenant.verify_limit` (models.py line 148-165). `count` stands for
`queryset.count()`, supplied by the caller's queryset. A `None` limit means
unlimited; `count >= limit` raises `PlanLimitExceeded` carrying the key. -/
def Tenant.verify_limit (t : Tenant) (key : String) (count : Nat) :
    Except TenantExc Unit :=
  match t.get_active_subscription with
  | none => .error (.subscriptionExpired "No active subscription found.")
  | some s =>
    match s.plan.get_limit key with
    | none => .ok ()
    | some limit =>
      if count >= limit then
        .error (.planLimitExceeded
          ("You have reached the limit of " ++ toString limit ++ " for " ++
           key ++ " on your current plan.") (some key))
      else
        .ok ()

/-! ## context.py -/

/-- The thread-local slot of `context.py`, passed explicitly. -/
abbrev Ctx := Option Tenant

/-- `set_current_tenant` (context.py): stores the tenant in the slot. -/
def set_current_tenant (t : Tenant) (_ : Ctx) : Ctx := some t

/-- `get_current_tenant` (context.py): reads the slot (`None` when unset). -/
def get_current_tenant (c : Ctx) : Option Tenant := c

/-- `clear_current_tenant` (context.py): resets the slot to `None`. -/
def clear_current_tenant (_ : Ctx) : Ctx := none

/-! ## middleware.py

`TenantMiddleware.__call__` is embedded as a function of the request plus the
observable results of its collaborators:
* `auth` — the result of `_authenticate_jwt` (`none` covers both a missing
  credential and an invalid token, which the method maps to `None`);
* `resolve` — the result of the project-supplied abstract method
  `_get_tenant_for_user`: either a raised exception / unhandled fault, or a
  returned `Option Tenant` together with the `request.is_impersonating` flag
  the implementation may have set;
* `downstream` — the result of `get_response` (`Except.error ()` is an
  unhandled downstream fault).
The returned `CallTrace` records the HTTP outcome, the final thread-local
context, and whether the authentication oracle / subscription verification /
`set_current_tenant` were invoked, plus the access mode granted. -/

/-- The authenticated principal, as middleware and permissions read it. -/
structure User where
  is_staff : Bool
  is_superuser : Bool
  groups : List String
deriving DecidableEq, Repr

/-- The parts of the HTTP request the middleware reads. -/
structure Request where
  path : String
  xTenantId : Option String
deriving DecidableEq, Repr

/-- Something raised inside the middleware's `try` block: one of the modelled
exception classes, or an arbitrary unhandled fault. -/
inductive Raised where
  | exc (e : TenantExc)
  | fault
deriving DecidableEq, Repr

/-- A `JsonResponse`: HTTP status, error body, optional machine `code`. -/
structure Response where
  status : Nat
  error : String
  code : Option String
deriving DecidableEq, Repr

/-- The access mode a request was granted when it was handed to the
downstream handler with authorization. -/
inductive Mode where
  | normalTenant
  | globalOp
  | impersonating
deriving DecidableEq, Repr

/-- `TenantMiddleware.PUBLIC_PATHS` (middleware.py line 32-38). -/
def PUBLIC_PATHS : List String :=
  ["/api/auth/login/", "/api/auth/token/refresh/", "/api/auth/register/",
   "/admin/", "/health/"]

/-- Python's `str.startswith`, character by character. -/
def strStartsWith (s p : String) : Bool :=
  p.data.isPrefixOf s.data

namespace TenantMiddleware

/-- `TenantMiddleware._is_public` (middleware.py line 109-110):
`any(path.startswith(p) for p in self.PUBLIC_PATHS)`. -/
def is_public (path : String) : Bool :=
  PUBLIC_PATHS.any (fun p => strStartsWith path p)

/-- `TenantMiddleware._has_impersonation_header` (middleware.py line 112-113):
`bool(request.headers.get("X-Tenant-ID"))` — an absent or empty header is
falsy. -/
def has_impersonation_header (r : Request) : Bool :=
  match r.xTenantId with
  | none => false
  | some v => v != ""

/-- The `except` clauses of `__call__` (middleware.py line 80-93): the
response produced for each caught exception class; `none` for an exception
(such as `PlanLimitExceeded`) that no clause catches, so it propagates. -/
def exceptionResponse (e : TenantExc) : Option Response :=
  match e with
  | .tenantNotFound =>
      some ⟨404, "No tenant associated with this account.", none⟩
  | .tenantInactive =>
      some ⟨403, "This account is deactivated.", none⟩
  | .subscriptionExpired m =>
      some ⟨402, m, some "subscription_expired"⟩
  | .subscriptionSuspended m =>
      some ⟨402, m, some "subscription_suspended"⟩
  | .planLimitExceeded _ _ => none

/-- A `get_response` result viewed from inside the `try` block. -/
def liftDownstream (d : Except Unit Response) : Except Raised Response :=
  match d with
  | .ok r => .ok r
  | .error _ => .error .fault

/-- The instrumented result of the middleware's `try` body. `ctx` is the
thread-local slot as the body leaves it (before the `finally` clause). -/
structure BodyTrace where
  result : Except Raised Response
  ctx : Ctx
  verifyInvoked : Bool
  contextSet : Bool
  mode : Option Mode
deriving Repr

/-- The body of `__call__`'s `try` block (middleware.py line 50-78), for a
non-public request, started with slot contents `ctx0`. Mirrors the source
line by line: missing user → 401; staff without impersonation header →
global pass-through; then the abstract resolver; a `None` tenant →
pass-through; inactive tenant → `TenantInactive`; subscription verification
unless `request.is_impersonating`; then `set_current_tenant` and
`get_response`. -/
def runBody (req : Request) (auth : Option User)
    (resolve : Except Raised (Option Tenant × Bool))
    (downstream : Except Unit Response) (today : Date) (ctx0 : Ctx) :
    BodyTrace :=
  match auth with
  | none =>
      ⟨.ok ⟨401, "Authentication required.", none⟩, ctx0, false, false, none⟩
  | some user =>
    if user.is_staff && !(has_impersonation_header req) then
      ⟨liftDownstream downstream, ctx0, false, false, some .globalOp⟩
    else
      match resolve with
      | .error r => ⟨.error r, ctx0, false, false, none⟩
      | .ok (none, _) =>
          ⟨liftDownstream downstream, ctx0, false, false, some .globalOp⟩
      | .ok (some tenant, imp) =>
        if !tenant.is_active then
          ⟨.error (.exc .tenantInactive), ctx0, false, false, none⟩
        else if !imp then
          match tenant.verify_subscription today with
          | .error e => ⟨.error (.exc e), ctx0, true, false, none⟩
          | .ok _ =>
              ⟨liftDownstream downstream, set_current_tenant tenant ctx0,
                true, true, some .normalTenant⟩
        else
          ⟨liftDownstream downstream, set_current_tenant tenant ctx0,
            false, true, some .impersonating⟩

/-- The instrumented result of a full middleware call. -/
structure CallTrace where
  outcome : Except Unit Response
  finalCtx : Ctx
  authInvoked : Bool
  verifyInvoked : Bool
  contextSet : Bool
  mode : Option Mode
deriving Repr

/-- `TenantMiddleware.__call__` (middleware.py line 44-97). A public path
returns `get_response(request)` before the `try` block, leaving the context
slot `ctx0` untouched; otherwise the body runs, caught exceptions become
their mapped responses, uncaught ones propagate, and the `finally` clause
clears the context on every one of those paths. -/
def call (req : Request) (auth : Option User)
    (resolve : Except Raised (Option Tenant × Bool))
    (downstream : Except Unit Response) (today : Date) (ctx0 : Ctx) :
    CallTrace :=
  if is_public req.path then
    ⟨downstream, ctx0, false, false, false, none⟩
  else
    let b := runBody req auth resolve downstream today ctx0
    let outcome : Except Unit Response :=
      match b.result with
      | .ok r => .ok r
      | .error (.exc e) =>
        match exceptionResponse e with
        | some r => .ok r
        | none => .error ()
      | .error .fault => .error ()
    ⟨outcome, clear_current_tenant b.ctx, true,
      b.verifyInvoked, b.contextSet, b.mode⟩

end TenantMiddleware

/-! ## models.py / mixins.py: tenant-scoped querysets

A Django queryset of business rows is modelled as a `List Row`; each row
carries its `tenant` foreign key (identified by the tenant's unique slug) and
its optional `subsidiary` foreign key (identified by an id string).
`qs.filter(field=v)` becomes `List.filter`; `qs.none()` becomes `[]`. -/

/-- A business-model row as the scoping filters see it. -/
structure Row where
  tenant : Option String
  subsidiary : Option String
deriving DecidableEq, Repr

/-- `TenantManager.get_queryset` (models.py line 216-220):
`qs.filter(tenant=tenant) if tenant else qs`. -/
def TenantManager.get_queryset (ctx : Ctx) (qs : List Row) : List Row :=
  match get_current_tenant ctx with
  | some t => qs.filter (fun r => r.tenant == some t.slug)
  | none => qs

/-- `TenantQuerysetMixin.get_queryset` (mixins.py line 27-32): filters by the
context tenant only when one is set and the model has a `tenant` attribute
(`hasattr(qs.model, "tenant")`, passed here as `modelHasTenantField`). -/
def TenantQuerysetMixin.get_queryset (ctx : Ctx) (modelHasTenantField : Bool)
    (qs : List Row) : List Row :=
  match get_current_tenant ctx with
  | some t =>
    if modelHasTenantField then qs.filter (fun r => r.tenant == some t.slug)
    else qs
  | none => qs

/-- The error raised out of `PlanLimitMixin.perform_create`: a DRF
`PermissionDenied` (HTTP 403) with its detail string, or an exception the
method does not catch, which propagates. -/
inductive CreateError where
  | denied (status : Nat) (detail : String)
  | uncaught (e : TenantExc)
deriving DecidableEq, Repr

/-- `PlanLimitMixin.perform_create` (mixins.py line 53-60): when a
`plan_limit_key` is configured (a non-empty string — `None` and `""` are
falsy) and a tenant is in context, run `verify_limit` with the count of
`get_plan_limit_queryset()`; a `PlanLimitExceeded` is re-raised as
`DRFPermissionDenied(str(e))` (HTTP 403 with the exception's message); other
exceptions propagate; otherwise creation proceeds. -/
def PlanLimitMixin.perform_create (ctx : Ctx) (plan_limit_key : Option String)
    (count : Nat) : Except CreateError Unit :=
  match get_current_tenant ctx, plan_limit_key with
  | some t, some key =>
    if key == "" then .ok ()
    else
      match t.verify_limit key count with
      | .ok _ => .ok ()
      | .error (.planLimitExceeded msg _) => .error (.denied 403 msg)
      | .error e => .error (.uncaught e)
  | _, _ => .ok ()

/-! ## permissions.py

`settings.ROLE_PERMISSIONS`, `settings.ROLES_WITH_GLOBAL_VIEW` and
`settings.IMPERSONATION_GROUPS` are deployment configuration, passed as
explicit parameters (an association list / lists of names). The active
membership of the request's user — the result of
`MembershipModel.objects.get(user=request.user, is_active=True)`, `none` on
`DoesNotExist` — is likewise passed explicitly. -/

/-- A `TenantMembership` row as the permission layer reads it: its role and
its optional subsidiary (identified by an id string). -/
structure Membership where
  role : String
  subsidiary : Option String
deriving DecidableEq, Repr

/-- `get_user_role` (permissions.py line 62-86): `None` for unauthenticated
or staff users; otherwise the active membership's role, or `None` when the
lookup raises `DoesNotExist`. -/
def get_user_role (user : User) (isAuthenticated : Bool)
    (membership : Option Membership) : Option String :=
  if !isAuthenticated then none
  else if user.is_staff then none
  else membership.map (fun m => m.role)

/-- `get_user_subsidiary` (permissions.py line 89-111): `None` for staff;
otherwise the active membership's subsidiary, or `None` with no membership. -/
def get_user_subsidiary (user : User) (membership : Option Membership) :
    Option String :=
  if user.is_staff then none
  else
    match membership with
    | some m => m.subsidiary
    | none => none

/-- `has_permission` (permissions.py line 114-125): false with no role;
otherwise membership of the permission in `ROLE_PERMISSIONS[role]`
(defaulting to the empty set). -/
def has_permission (user : User) (isAuthenticated : Bool)
    (membership : Option Membership)
    (role_permissions : List (String × List String)) (perm : String) : Bool :=
  match get_user_role user isAuthenticated membership with
  | none => false
  | some role =>
    match role_permissions.find? (fun kv => kv.1 == role) with
    | some kv => kv.2.contains perm
    | none => false

/-- `user_in_group` (permissions.py line 128-139): superusers always pass;
otherwise the user must belong to one of the named groups. -/
def user_in_group (user : User) (groups : List String) : Bool :=
  if user.is_superuser then true
  else user.groups.any (fun g => groups.contains g)

/-- `can_impersonate` (permissions.py line 142-151): non-staff never;
superusers always; otherwise membership in `IMPERSONATION_GROUPS`. -/
def can_impersonate (user : User) (impersonation_groups : List String) : Bool :=
  if !user.is_staff then false
  else if user.is_superuser then true
  else user.groups.any (fun g => impersonation_groups.contains g)

/-- `role in get_roles_with_global_view()` as evaluated in
`RoleFilterMixin.get_queryset` — a `None` role is in no set of role names. -/
def roleHasGlobalView (role : Option String)
    (global_view_roles : List String) : Bool :=
  match role with
  | some r => global_view_roles.contains r
  | none => false

/-- `RoleFilterMixin.get_queryset` (permissions.py line 170-188): staff see
everything; a role in `ROLES_WITH_GLOBAL_VIEW` sees the whole queryset;
otherwise rows are filtered by the user's subsidiary, and with no subsidiary
the result is `qs.none()`. -/
def RoleFilterMixin.get_queryset (user : User) (isAuthenticated : Bool)
    (membership : Option Membership) (global_view_roles : List String)
    (qs : List Row) : List Row :=
  if user.is_staff then qs
  else if roleHasGlobalView (get_user_role user isAuthenticated membership)
      global_view_roles then qs
  else
    match get_user_subsidiary user membership with
    | some sub => qs.filter (fun r => r.subsidiary == some sub)
    | none => []

/-! ## Concrete instances

Closed values of the data model, used to evaluate the definitions at
concrete inputs in the theorems below. -/

/-- A plan whose only quota lives in the `extra_limits` map. -/
def planBasic : Plan := ⟨"basic", none, none, [("max_vehicles", 10)]⟩

/-- A plan that sets only the named numeric field `max_users`. -/
def planNamedOnly : Plan := ⟨"named", some 5, none, []⟩

/-- An `active` subscription on `planBasic`, ending on day 100. -/
def subBasic : Subscription := ⟨planBasic, 0, 100, .active, true⟩

/-- A `suspended` subscription on `planBasic`. -/
def subSuspended : Subscription := ⟨planBasic, 0, 100, .suspended, true⟩

/-- An `active` subscription on `planNamedOnly`. -/
def subNamed : Subscription := ⟨planNamedOnly, 0, 100, .active, true⟩

/-- An active tenant holding only `subBasic`. -/
def tenantBasic : Tenant := ⟨"Acme", "acme", true, [subBasic]⟩

/-- An active tenant whose only subscription is `subSuspended`. -/
def tenantSuspended : Tenant := ⟨"Susp", "susp", true, [subSuspended]⟩

/-- An active tenant holding only `subNamed`. -/
def tenantNamed : Tenant := ⟨"Named", "named", true, [subNamed]⟩

/-- A request to a non-public API path, without the impersonation header. -/
def reqApi : Request := ⟨"/api/vehicles/", none⟩

/-- A request to the public health endpoint. -/
def reqHealth : Request := ⟨"/health/", none⟩

/-- An ordinary (non-staff) principal. -/
def userNormal : User := ⟨false, false, []⟩

/-- A staff principal in no groups. -/
def userStaff : User := ⟨true, false, []⟩

/-- A plain 200 response standing for the downstream handler's answer. -/
def respOk : Response := ⟨200, "", none⟩

/-- A membership with role `driver` scoped to subsidiary `s1`. -/
def memDriver : Membership := ⟨"driver", some "s1"⟩

/-- A row owned by tenant `acme`, subsidiary `s1`. -/
def rowS1 : Row := ⟨some "acme", some "s1"⟩

/-- A row owned by tenant `acme`, subsidiary `s2`. -/
def rowS2 : Row := ⟨some "acme", some "s2"⟩

/-- A row owned by another tenant, no subsidiary. -/
def rowOther : Row := ⟨some "globex", none⟩

/-! ## Claims -/

/-- **C1**: for every request processed by the pipeline (a non-public path),
the `finally` clause clears the tenant context on every exit path — success,
handled rejection by any of the four caught exception classes, or unhandled
fault in the resolver or the downstream handler — so after the call
`get_current_tenant()` is `none`, for every authentication result, resolver
result, downstream result and initial slot contents. -/
theorem C1_context_cleared_on_every_exit (req : Request) (auth : Option User)
    (resolve : Except Raised (Option Tenant × Bool))
    (downstream : Except Unit Response) (today : Date) (ctx0 : Ctx)
    (hpub : TenantMiddleware.is_public req.path = false) :
    (TenantMiddleware.call req auth resolve downstream today ctx0).finalCtx
      = none ∧
    get_current_tenant
      (TenantMiddleware.call req auth resolve downstream today ctx0).finalCtx
      = none := by
  refine ⟨?_, ?_⟩ <;>
    simp [TenantMiddleware.call, hpub, clear_current_tenant,
      get_current_tenant]

/-- Witness for C1: the pipeline run on a concrete non-public request, with a
leaked tenant in the slot and a downstream fault, still ends with an empty
context. -/
theorem C1_witness :
    (TenantMiddleware.call reqApi (some userNormal)
        (Except.ok (some tenantBasic, false)) (Except.error ()) 50
        (some tenantSuspended)).finalCtx = none ∧
    get_current_tenant
      (TenantMiddleware.call reqApi (some userNormal)
        (Except.ok (some tenantBasic, false)) (Except.error ()) 50
        (some tenantSuspended)).finalCtx = none :=
  C1_context_cleared_on_every_exit reqApi (some userNormal)
    (Except.ok (some tenantBasic, false)) (Except.error ()) 50
    (some tenantSuspended) (by decide)

/-- **C5**: a request whose path starts with an allow-listed public prefix
is handed straight to the downstream handler: the authentication oracle is
never invoked, `set_current_tenant` is never invoked, the outcome is exactly
the downstream result, and the context slot is left untouched. -/
theorem C5_public_path_purity (req : Request) (auth : Option User)
    (resolve : Except Raised (Option Tenant × Bool))
    (downstream : Except Unit Response) (today : Date) (ctx0 : Ctx)
    (hpub : TenantMiddleware.is_public req.path = true) :
    (TenantMiddleware.call req auth resolve downstream today ctx0).authInvoked
      = false ∧
    (TenantMiddleware.call req auth resolve downstream today ctx0).contextSet
      = false ∧
    (TenantMiddleware.call req auth resolve downstream today ctx0).outcome
      = downstream ∧
    (TenantMiddleware.call req auth resolve downstream today ctx0).finalCtx
      = ctx0 := by
  refine ⟨?_, ?_, ?_, ?_⟩ <;> simp [TenantMiddleware.call, hpub]

/-- Witness for C5: a concrete request to `/health/` is passed through
untouched. -/
theorem C5_witness :
    (TenantMiddleware.call reqHealth (some userNormal)
        (Except.ok (some tenantBasic, false)) (Except.ok respOk) 50
        none).authInvoked = false ∧
    (TenantMiddleware.call reqHealth (some userNormal)
        (Except.ok (some tenantBasic, false)) (Except.ok respOk) 50
        none).contextSet = false ∧
    (TenantMiddleware.call reqHealth (some userNormal)
        (Except.ok (some tenantBasic, false)) (Except.ok respOk) 50
        none).outcome = Except.ok respOk ∧
    (TenantMiddleware.call reqHealth (some userNormal)
        (Except.ok (some tenantBasic, false)) (Except.ok respOk) 50
        none).finalCtx = none :=
  C5_public_path_purity reqHealth (some userNormal)
    (Except.ok (some tenantBasic, false)) (Except.ok respOk) 50 none
    (by decide)

/-- **C6**: with no tenant in the context, both tenant-scoped query
interfaces return the queryset completely unfiltered — every tenant's
records — rather than an empty one. -/
theorem C6_no_context_fails_open (qs : List Row) (modelHasTenantField : Bool) :
    TenantManager.get_queryset none qs = qs ∧
    TenantQuerysetMixin.get_queryset none modelHasTenantField qs = qs :=
  ⟨rfl, rfl⟩

/-- **C8**: subscription validity is inclusive of the end date: an `active`
subscription passes `verify_access` when `end_date` equals the current date,
and is rejected with `SubscriptionExpired` when `end_date` is strictly
before it. -/
theorem C8_subscription_boundary (s : Subscription) (today : Date)
    (hstat : s.status = .active) :
    (s.end_date = today → s.verify_access today = .ok ()) ∧
    (s.end_date < today →
      s.verify_access today = Except.error (TenantExc.subscriptionExpired
        ("Your subscription expired on " ++ toString s.end_date ++
         ". Please renew to continue."))) := by
  constructor
  · intro he
    simp [Subscription.verify_access, Subscription.is_active, hstat, he]
  · intro hlt
    have hb : ¬ (today ≤ s.end_date) := not_le.mpr hlt
    simp [Subscription.verify_access, Subscription.is_active, hstat, hb]

/-- Witness for C8: `subBasic` ends on day 100; it passes on day 100 and is
expired on day 101. -/
theorem C8_witness :
    subBasic.verify_access 100 = .ok () ∧
    subBasic.verify_access 101 = Except.error (TenantExc.subscriptionExpired
      "Your subscription expired on 100. Please renew to continue.") :=
  ⟨(C8_subscription_boundary subBasic 100 rfl).1 rfl,
   (C8_subscription_boundary subBasic 101 rfl).2 (by decide)⟩

/-- **C7**: when the active subscription's plan defines a numeric quota
`limit` for key `k` (a positive value, so `limit - 1` is a meaningful count),
`verify_limit` succeeds at `currentCount = limit - 1` and signals
`PlanLimitExceeded` carrying `k` as `limit_key` at every
`currentCount ≥ limit`. -/
theorem C7_quota_boundary (t : Tenant) (s : Subscription) (key : String)
    (limit : Nat) (hs : t.get_active_subscription = some s)
    (hl : s.plan.get_limit key = some limit) (hpos : 0 < limit) :
    t.verify_limit key (limit - 1) = .ok () ∧
    ∀ c : Nat, limit ≤ c →
      t.verify_limit key c = Except.error (TenantExc.planLimitExceeded
        ("You have reached the limit of " ++ toString limit ++ " for " ++
         key ++ " on your current plan.") (some key)) := by
  constructor
  · have h1 : ¬ (limit ≤ limit - 1) := by omega
    simp [Tenant.verify_limit, hs, hl, h1]
  · intro c hc
    simp [Tenant.verify_limit, hs, hl, hc]

/-- Witness for C7: `tenantBasic`'s plan caps `max_vehicles` at 10; count 9
passes, count 10 is rejected carrying the key. -/
theorem C7_witness :
    tenantBasic.verify_limit "max_vehicles" 9 = .ok () ∧
    tenantBasic.verify_limit "max_vehicles" 10 =
      Except.error (TenantExc.planLimitExceeded
        "You have reached the limit of 10 for max_vehicles on your current plan."
        (some "max_vehicles")) := by
  have h := C7_quota_boundary tenantBasic subBasic "max_vehicles" 10 rfl rfl
    (by decide)
  exact ⟨h.1, h.2 10 (by decide)⟩

/-- **C4** counterexample: the claim says the plan-limit check reads the
quota value from both the named numeric fields and the extra-limits map.
`planNamedOnly` sets the named field `max_users = 5` and an empty map; the
spec-faithful reading (`Plan.get_limit_spec`) yields `some 5` there, yet the
source's `Plan.get_limit` yields `none` and `verify_limit` succeeds at
`currentCount = 100 ≥ 5` — the named field is never consulted. -/
theorem C4_counterexample :
    tenantNamed.verify_limit "max_users" 100 = .ok () ∧
    Plan.get_limit_spec planNamedOnly "max_users" = some 5 ∧
    Plan.get_limit planNamedOnly "max_users" = none :=
  ⟨rfl, rfl, rfl⟩

/-- **C4** (amended): the plan-limit check reads the quota value only from
the open-ended extra-limits map — `Plan.get_limit` is invariant under the
named numeric fields `max_users` / `max_records` — and whenever the map
yields no value the check succeeds (unlimited) for every `currentCount`. -/
theorem C4_amended (p : Plan) (mu mr : Option Nat) (key : String) (t : Tenant)
    (s : Subscription) (c : Nat) (hs : t.get_active_subscription = some s)
    (hnone : s.plan.get_limit key = none) :
    Plan.get_limit { p with max_users := mu, max_recs := mr } key
      = Plan.get_limit p key ∧
    t.verify_limit key c = .ok () := by
  constructor
  · rfl
  · simp [Tenant.verify_limit, hs, hnone]

/-- Witness for C4 (amended): `tenantBasic`'s plan has no `max_users` entry
in its map, so the check passes at count 1000 whatever the named fields. -/
theorem C4_amended_witness :
    Plan.get_limit { planNamedOnly with max_users := some 7, max_recs := some 3 } "max_users" = Plan.get_limit planNamedOnly "max_users" ∧
    tenantBasic.verify_limit "max_users" 1000 = .ok () := by
  have h := C4_amended planNamedOnly (some 7) (some 3) "max_users"
    tenantBasic subBasic 1000 rfl rfl
  exact h

/-- **C2** counterexample: the claim says every tenant whose subscription is
`suspended` is rejected with `SubscriptionSuspended`. `tenantSuspended`'s
only subscription is `suspended`, yet `verify_subscription` — which selects
the active subscription by filtering `status == "active"` — finds none and
signals `SubscriptionExpired` instead. -/
theorem C2_counterexample :
    subSuspended.status = .suspended ∧
    tenantSuspended.subscriptions = [subSuspended] ∧
    tenantSuspended.verify_subscription 50 =
      Except.error (TenantExc.subscriptionExpired
        "No active subscription found.") ∧
    (TenantMiddleware.call reqApi (some userNormal)
        (Except.ok (some tenantSuspended, false)) (Except.ok respOk) 50
        none).outcome =
      Except.ok ⟨402, "No active subscription found.",
        some "subscription_expired"⟩ :=
  ⟨rfl, rfl, rfl, rfl⟩

/-- **C2** (amended): `Subscription.verify_access` does signal
`SubscriptionSuspended` for a `suspended` or `cancelled` subscription; but
`Tenant.verify_subscription` selects the subscription to check by filtering
`status == "active"`, so every subscription it inspects has status `active`,
and a tenant none of whose subscriptions is `active` — in particular one
whose only subscription is `suspended` — is rejected with
`SubscriptionExpired` ("No active subscription found."), reaching HTTP 402
with machine code `subscription_expired`, not `subscription_suspended`. -/
theorem C2_amended (s : Subscription) (t : Tenant) (today : Date) :
    ((s.status = .suspended ∨ s.status = .cancelled) →
      ∃ m, s.verify_access today =
        Except.error (TenantExc.subscriptionSuspended m)) ∧
    (∀ s', t.get_active_subscription = some s' → s'.status = .active) ∧
    ((∀ s' ∈ t.subscriptions, s'.status ≠ .active) →
      t.verify_subscription today =
        Except.error (TenantExc.subscriptionExpired
          "No active subscription found.")) := by
  refine ⟨?_, ?_, ?_⟩
  · rintro (h | h)
    · refine ⟨"Your account is suspended. Please contact support.", ?_⟩
      simp [Subscription.verify_access, h]
    · refine ⟨"Your subscription has been cancelled.", ?_⟩
      simp [Subscription.verify_access, h]
  · intro s' hs'
    have := List.find?_some hs'
    simpa using this
  · intro hnone
    have hfind : t.subscriptions.find? (fun s' => s'.status == .active)
        = none := by
      rw [List.find?_eq_none]
      intro a ha
      simpa using hnone a ha
    simp [Tenant.verify_subscription, Tenant.get_active_subscription, hfind]

/-- Witness for C2 (amended): evaluated at `subSuspended` and
`tenantSuspended`. -/
theorem C2_amended_witness :
    (∃ m, subSuspended.verify_access 50 =
      Except.error (TenantExc.subscriptionSuspended m)) ∧
    tenantSuspended.verify_subscription 50 =
      Except.error (TenantExc.subscriptionExpired
        "No active subscription found.") := by
  have h := C2_amended subSuspended tenantSuspended 50
  exact ⟨h.1 (Or.inl rfl), h.2.2 (by decide)⟩

/-- **C10**: every modelled rejection maps to the fixed status/code table:
`TenantNotFound` → 404, `TenantInactive` → 403, `SubscriptionExpired` → 402
with code `subscription_expired`, `SubscriptionSuspended` → 402 with code
`subscription_suspended` (the middleware's `except` clauses); and a
`PlanLimitExceeded` raised by `verify_limit` carries the offending key and is
surfaced by `PlanLimitMixin.perform_create` as HTTP 403 whose detail string
carries that key. -/
theorem C10_error_mapping (m msg : String) (lk : Option String) (t : Tenant)
    (key : String) (c : Nat) (hk : key ≠ "")
    (hlim : t.verify_limit key c =
      Except.error (TenantExc.planLimitExceeded msg lk)) :
    TenantMiddleware.exceptionResponse .tenantNotFound =
      some ⟨404, "No tenant associated with this account.", none⟩ ∧
    TenantMiddleware.exceptionResponse .tenantInactive =
      some ⟨403, "This account is deactivated.", none⟩ ∧
    TenantMiddleware.exceptionResponse (.subscriptionExpired m) =
      some ⟨402, m, some "subscription_expired"⟩ ∧
    TenantMiddleware.exceptionResponse (.subscriptionSuspended m) =
      some ⟨402, m, some "subscription_suspended"⟩ ∧
    lk = some key ∧
    (∃ a b, msg = a ++ key ++ b) ∧
    PlanLimitMixin.perform_create (some t) (some key) c =
      Except.error (.denied 403 msg) := by
  have hbk : (key == "") = false := by
    simpa using hk
  have hmain : lk = some key ∧ ∃ a b, msg = a ++ key ++ b := by
    cases hact : t.get_active_subscription with
    | none => simp [Tenant.verify_limit, hact] at hlim
    | some s =>
      cases hgl : s.plan.get_limit key with
      | none => simp [Tenant.verify_limit, hact, hgl] at hlim
      | some limit =>
        by_cases hc : limit ≤ c
        · have heq : t.verify_limit key c =
              Except.error (TenantExc.planLimitExceeded
                ("You have reached the limit of " ++ toString limit ++
                 " for " ++ key ++ " on your current plan.") (some key)) := by
            simp [Tenant.verify_limit, hact, hgl, hc]
          rw [heq] at hlim
          injection hlim with h
          injection h with h1 h2
          refine ⟨h2.symm, ?_⟩
          exact ⟨"You have reached the limit of " ++ toString limit ++
            " for ", " on your current plan.", h1.symm⟩
        · have heq : t.verify_limit key c = .ok () := by
            simp [Tenant.verify_limit, hact, hgl, hc]
          rw [heq] at hlim
          exact absurd hlim (by simp)
  refine ⟨rfl, rfl, rfl, rfl, hmain.1, hmain.2, ?_⟩
  simp [PlanLimitMixin.perform_create, get_current_tenant, hbk, hlim]

/-- Witness for C10: `tenantBasic` over its `max_vehicles` cap of 10. -/
theorem C10_witness :
    PlanLimitMixin.perform_create (some tenantBasic) (some "max_vehicles") 10
      = Except.error (.denied 403
        "You have reached the limit of 10 for max_vehicles on your current plan.") ∧
    TenantMiddleware.exceptionResponse
        (.subscriptionExpired "No active subscription found.") =
      some ⟨402, "No active subscription found.",
        some "subscription_expired"⟩ := by
  have h := C10_error_mapping "No active subscription found."
    "You have reached the limit of 10 for max_vehicles on your current plan."
    (some "max_vehicles") tenantBasic "max_vehicles" 10 (by decide) rfl
  exact ⟨h.2.2.2.2.2.2, h.2.2.1⟩

/-- **C9**: for a non-staff request through `RoleFilterMixin.get_queryset`:
a role in the configured global-view set yields the whole tenant queryset;
otherwise, with a resolvable subsidiary the result is exactly the rows
matching that subsidiary; and with no resolvable subsidiary — including no
role or no membership — the result is empty, never the unfiltered set. -/
theorem C9_role_scoping (user : User) (isAuth : Bool)
    (membership : Option Membership) (gvr : List String) (qs : List Row)
    (hstaff : user.is_staff = false) :
    (roleHasGlobalView (get_user_role user isAuth membership) gvr = true →
      RoleFilterMixin.get_queryset user isAuth membership gvr qs = qs) ∧
    (∀ sub,
      roleHasGlobalView (get_user_role user isAuth membership) gvr = false →
      get_user_subsidiary user membership = some sub →
      (RoleFilterMixin.get_queryset user isAuth membership gvr qs =
         qs.filter (fun row => row.subsidiary == some sub) ∧
       ∀ row, row ∈ RoleFilterMixin.get_queryset user isAuth membership gvr qs
         ↔ row ∈ qs ∧ row.subsidiary = some sub)) ∧
    (roleHasGlobalView (get_user_role user isAuth membership) gvr = false →
      get_user_subsidiary user membership = none →
      RoleFilterMixin.get_queryset user isAuth membership gvr qs = []) := by
  refine ⟨?_, ?_, ?_⟩
  · intro hgv
    simp [RoleFilterMixin.get_queryset, hstaff, hgv]
  · intro sub hgv hsub
    have heq : RoleFilterMixin.get_queryset user isAuth membership gvr qs =
        qs.filter (fun row => row.subsidiary == some sub) := by
      simp [RoleFilterMixin.get_queryset, hstaff, hgv, hsub]
    refine ⟨heq, ?_⟩
    intro row
    rw [heq, List.mem_filter]
    simp
  · intro hgv hsub
    simp [RoleFilterMixin.get_queryset, hstaff, hgv, hsub]

/-- Witness for C9: a `driver` role outside the global-view set sees only
its own subsidiary's rows; with no membership it sees nothing; an `admin`
role in the set sees everything. -/
theorem C9_witness :
    RoleFilterMixin.get_queryset userNormal true (some memDriver) ["admin"]
        [rowS1, rowS2, rowOther] = [rowS1] ∧
    RoleFilterMixin.get_queryset userNormal true none ["admin"]
        [rowS1, rowS2, rowOther] = [] ∧
    RoleFilterMixin.get_queryset userNormal true (some ⟨"admin", none⟩)
        ["admin"] [rowS1, rowS2, rowOther] = [rowS1, rowS2, rowOther] := by
  have h1 := C9_role_scoping userNormal true (some memDriver) ["admin"]
    [rowS1, rowS2, rowOther] rfl
  have h2 := C9_role_scoping userNormal true none ["admin"]
    [rowS1, rowS2, rowOther] rfl
  have h3 := C9_role_scoping userNormal true (some ⟨"admin", none⟩) ["admin"]
    [rowS1, rowS2, rowOther] rfl
  refine ⟨?_, h2.2.2 (by decide) (by decide), h3.1 (by decide)⟩
  have := (h1.2.1 "s1" (by decide) (by decide)).1
  rw [this]
  decide

/-- **C3**: under the documented contract of the abstract resolver
`_get_tenant_for_user` — it returns the user's tenant or raises, never
`None` — an authenticated non-public request is granted access in exactly
one of the three modes (the `Mode` type and the single `mode` field make the
trichotomy structural), and `verify_subscription` is invoked exactly on the
non-impersonating resolved-tenant path with an active tenant: it is skipped
on the impersonation path and on the global-operator path (which arises only
for a staff user without the impersonation header), and no other branch
skips it. -/
theorem C3_subscription_guard_exclusivity (req : Request) (user : User)
    (resolve : Except Raised (Option Tenant × Bool))
    (downstream : Except Unit Response) (today : Date) (ctx0 : Ctx)
    (hpub : TenantMiddleware.is_public req.path = false)
    (hcontract : ∀ b, resolve ≠ Except.ok (none, b)) :
    ((TenantMiddleware.call req (some user) resolve downstream today
        ctx0).verifyInvoked = true ↔
      ((user.is_staff && !(TenantMiddleware.has_impersonation_header req))
          = false ∧
       ∃ t, resolve = Except.ok (some t, false) ∧ t.is_active = true)) ∧
    ((TenantMiddleware.call req (some user) resolve downstream today
        ctx0).mode = some .normalTenant →
      (TenantMiddleware.call req (some user) resolve downstream today
        ctx0).verifyInvoked = true) ∧
    ((TenantMiddleware.call req (some user) resolve downstream today
        ctx0).mode = some .impersonating →
      (TenantMiddleware.call req (some user) resolve downstream today
        ctx0).verifyInvoked = false) ∧
    ((TenantMiddleware.call req (some user) resolve downstream today
        ctx0).mode = some .globalOp →
      (TenantMiddleware.call req (some user) resolve downstream today
        ctx0).verifyInvoked = false ∧
      user.is_staff = true ∧
      TenantMiddleware.has_impersonation_header req = false) := by
  cases hst : user.is_staff && !(TenantMiddleware.has_impersonation_header req)
    with
  | true =>
    have hs' := hst
    rw [Bool.and_eq_true] at hs'
    have hs1 : user.is_staff = true := hs'.1
    have hs2 : TenantMiddleware.has_impersonation_header req = false := by
      simpa using hs'.2
    simp [TenantMiddleware.call, hpub, TenantMiddleware.runBody, hst, hs1,
      hs2]
  | false =>
    cases resolve with
    | error r =>
      simp [TenantMiddleware.call, hpub, TenantMiddleware.runBody, hst]
    | ok p =>
      obtain ⟨topt, imp⟩ := p
      cases topt with
      | none => exact absurd rfl (hcontract imp)
      | some t =>
        cases hact : t.is_active with
        | false =>
          simp [TenantMiddleware.call, hpub, TenantMiddleware.runBody, hst,
            hact]
        | true =>
          cases imp with
          | true =>
            simp [TenantMiddleware.call, hpub, TenantMiddleware.runBody, hst,
              hact]
          | false =>
            cases hv : t.verify_subscription today with
            | error e =>
              simp [TenantMiddleware.call, hpub, TenantMiddleware.runBody,
                hst, hact, hv]
            | ok u =>
              simp [TenantMiddleware.call, hpub, TenantMiddleware.runBody,
                hst, hact, hv]

/-- Witness for C3: a normal principal resolved to the active `tenantBasic`
without impersonation has the subscription guard invoked and is granted
normal-tenant mode. -/
theorem C3_witness :
    (TenantMiddleware.call reqApi (some userNormal)
        (Except.ok (some tenantBasic, false)) (Except.ok respOk) 50
        none).verifyInvoked = true ∧
    (TenantMiddleware.call reqApi (some userNormal)
        (Except.ok (some tenantBasic, false)) (Except.ok respOk) 50
        none).mode = some .normalTenant := by
  have h := C3_subscription_guard_exclusivity reqApi userNormal
    (Except.ok (some tenantBasic, false)) (Except.ok respOk) 50 none
    (by decide) (by intro b; simp)
  exact ⟨h.1.mpr ⟨by decide, tenantBasic, rfl, rfl⟩, rfl⟩

end TenantCore
